import Mathlib

/-
Verification development for the osos GitHub API client
(src/osos/api_github/api_github.py).

The HTTP transport is modelled as an oracle: the environment supplies the
sequence of responses that the successive `requests.get` calls of a method
receive.  Each method of the `Github` class is translated into a Lean
function over that oracle, recording the calls it issues (URL, headers and
the query parameters actually forwarded to `requests.get`) together with
its observable outcome.
-/

namespace Osos

/-- A JSON value, the model of the payloads returned by `Response.json()`. -/
inductive Json where
  | null : Json
  | bool : Bool → Json
  | num : Int → Json
  | str : String → Json
  | arr : List Json → Json
  | obj : List (String × Json) → Json
deriving Repr

/-- Python truthiness of a JSON value: `None`, `False`, `0`, the empty
string, the empty list and the empty dict are falsy, everything else is
truthy. -/
def truthy : Json → Bool
  | .null => false
  | .bool b => b
  | .num n => !(n == 0)
  | .str s => !(s == "")
  | .arr xs => !xs.isEmpty
  | .obj kvs => !kvs.isEmpty

/-- The Python name of the runtime type of a JSON value, used in error
messages. -/
def jsonTypeName : Json → String
  | .null => "NoneType"
  | .bool _ => "bool"
  | .num _ => "int"
  | .str _ => "str"
  | .arr _ => "list"
  | .obj _ => "dict"

/-- Python `any(temp)` applied to a JSON value.  Lists are iterated over
their elements, dicts over their keys (a key is truthy when it is a
non-empty string), strings over their one-character substrings (every
character is truthy, so `any` of a string is its non-emptiness).  `None`,
booleans and numbers are not iterable: `any` raises `TypeError`, modelled
as `none`. -/
def pyAny : Json → Option Bool
  | .arr xs => some (xs.any truthy)
  | .obj kvs => some (kvs.any (fun kv => !(kv.fst == "")))
  | .str s => some (!(s == ""))
  | _ => none

/-- The Python exceptions raised by the client.  `ioError` is the
`IOError` raised on a non-200 status; it carries the four pieces of data
the code formats into the message: status code, reason, request URL and
response body. -/
inductive PyError where
  | osError (msg : String)
  | ioError (status_code : Nat) (reason : String) (request : String) (body : String)
  | typeError (msg : String)
  | attributeError (msg : String)
  | keyError (key : String)
  | runtimeError (msg : String)
deriving Repr, DecidableEq

/-- A value of a query parameter (`params` entries are strings or
integers). -/
inductive PVal where
  | str : String → PVal
  | int : Int → PVal
deriving Repr, DecidableEq

/-- HTTP headers, modelled as an association list with dict semantics. -/
abbrev Headers : Type := List (String × String)

/-- Query parameters. -/
abbrev Params : Type := List (String × PVal)

/-- Dict lookup in an association list (first binding wins, as each key
occurs at most once in a Python dict). -/
def lookupStr (l : List (String × String)) (k : String) : Option String :=
  (l.find? (fun kv => kv.fst == k)).map (fun kv => kv.snd)

/-- One HTTP response, the model of a `requests.models.Response`:
status code, reason, body text, parsed JSON payload and the parsed `Link`
header as a map from link relation to URL (`resp.links[rel][url]`). -/
structure Response where
  status_code : Nat
  reason : String
  text : String
  json : Json
  links : List (String × String)
deriving Repr

/-- One issued `requests.get` call: the URL, the headers passed, and the
query parameters actually forwarded (the `params=` keyword). -/
structure GetCall where
  url : String
  headers : List (String × String)
  params : List (String × PVal)
deriving Repr

/-- The header preparation shared by `get_request`, `get_generator` and
`get_all`:

    headers = kwargs.pop(headers, \x7b\x7d)
    if Authorization not in headers:
        headers[Authorization] = f"token \x7btoken\x7d"

The caller-supplied dict is kept unchanged when it already has an
`Authorization` key; otherwise the token entry is appended. -/
def authHeaders (token : String) (headers : Headers) : Headers :=
  if (lookupStr headers "Authorization").isSome then headers
  else headers ++ [("Authorization", "token " ++ token)]

/-- `Github.get_request`: a single authenticated GET.  The remaining
kwargs (in particular `params`) are forwarded to `requests.get`
unchanged.  A status other than 200 raises `IOError` with the status
code, reason, request URL and body formatted into the message. -/
def get_request (token : String) (request : String) (headers0 : Headers)
    (params0 : Params) (resp : Response) : GetCall × Except PyError Response :=
  let headers := authHeaders token headers0
  (⟨request, headers, params0⟩,
    if resp.status_code ≠ 200 then
      Except.error (PyError.ioError resp.status_code resp.reason request resp.text)
    else
      Except.ok resp)

/-- Outcome of a `get_generator` run: the loop broke on a page with no
truthy elements (`done`), raised (`failed`), or the supplied response
oracle was exhausted while the loop would have kept going
(`exhausted`). -/
inductive GenOutcome where
  | done : GenOutcome
  | failed : PyError → GenOutcome
  | exhausted : GenOutcome
deriving Repr, DecidableEq

/-- A run of `get_generator`: the `requests.get` calls issued, the
entries yielded to the consumer, and the final outcome. -/
structure GenRun where
  calls : List GetCall
  items : List Json
  outcome : GenOutcome
deriving Repr

/-- Message of the `TypeError` raised by `any(temp)` on a non-iterable
JSON value. -/
def anyErrMsg (j : Json) : String :=
  "argument of type " ++ jsonTypeName j ++ " is not iterable"

/-- Message of the `TypeError` raised by `get_generator` on a truthy
non-list page. -/
def genTypeErrMsg (j : Json) (request : String) : String :=
  "JSON output is type " ++ jsonTypeName j ++
    ", not list, could not parse output from request: " ++ request

/-- Message of the `TypeError` raised by `get_all` on a page that is
neither dict nor list (reached only from the second accumulated page
on). -/
def allTypeErrMsg (j : Json) (request : String) : String :=
  "JSON output is type " ++ jsonTypeName j ++
    ", not dict or list, could not parse output from request: " ++ request

/-- The `while True` loop of `Github.get_generator`, one step per
response taken from the oracle.  Note that the source pops `params` out
of `kwargs` and mutates `params[page]` (0, then +1 per iteration), but
then calls `requests.get(request, headers=headers, **kwargs)` with
`params` no longer in `kwargs`: the issued call carries no query
parameters at all, so the page counter has no observable effect and is
omitted from the loop state. -/
def genLoop (request : String) (headers : Headers) : List Response → GenRun
  | [] => ⟨[], [], GenOutcome.exhausted⟩
  | r :: rest =>
    let call : GetCall := ⟨request, headers, []⟩
    if r.status_code ≠ 200 then
      ⟨[call], [], GenOutcome.failed
        (PyError.ioError r.status_code r.reason request r.text)⟩
    else
      match pyAny r.json with
      | none => ⟨[call], [], GenOutcome.failed (PyError.typeError (anyErrMsg r.json))⟩
      | some false => ⟨[call], [], GenOutcome.done⟩
      | some true =>
        match r.json with
        | Json.arr xs =>
          let k := genLoop request headers rest
          ⟨call :: k.calls, xs ++ k.items, k.outcome⟩
        | j => ⟨[call], [], GenOutcome.failed (PyError.typeError (genTypeErrMsg j request))⟩

/-- `Github.get_generator`: pops `headers` and `params` from kwargs,
ensures an `Authorization` header, then runs the pagination loop.
`params0` is the popped `params` dict: it is never forwarded to
`requests.get`. -/
def get_generator (token : String) (request : String) (headers0 : Headers)
    (params0 : Params) (pages : List Response) : GenRun :=
  let headers := authHeaders token headers0
  let _ := params0
  genLoop request headers pages

/-- Outcome of a `get_all` run: normal return of the accumulated value
(`none` when the loop broke before accumulating any page), an exception,
or oracle exhaustion. -/
inductive AllOutcome where
  | ok : Option Json → AllOutcome
  | failed : PyError → AllOutcome
  | exhausted : AllOutcome
deriving Repr

/-- A run of `get_all`: the `requests.get` calls issued and the result. -/
structure AllRun where
  calls : List GetCall
  result : AllOutcome
deriving Repr

/-- Python dict assignment `base[k] = v`: replace in place when the key
exists, append otherwise. -/
def dictSet (base : List (String × Json)) (k : String) (v : Json) :
    List (String × Json) :=
  if base.any (fun kv => kv.fst == k) then
    base.map (fun kv => if kv.fst == k then (k, v) else kv)
  else base ++ [(k, v)]

/-- Python `base.update(upd)` for dicts: later pages overwrite the values
of overlapping keys. -/
def dictUpdate (base : List (String × Json)) : List (String × Json) → List (String × Json)
  | [] => base
  | (k, v) :: rest => dictUpdate (dictSet base k v) rest

/-- The `while True` loop of `Github.get_all`.  As in `get_generator`,
the popped `params` dict (with its incremented page counter) is never
forwarded to `requests.get`, so each issued call carries no query
parameters.  The accumulation chain branches on the type of the fetched
page only: the first accumulated page is stored unchecked, a dict page
is merged with `out.update` (an `AttributeError` when `out` is not a
dict), a list page is appended with `out += temp` (a `TypeError` when
`out` is not a list), and any other page raises the explicit
`TypeError`. -/
def allLoop (request : String) (headers : Headers) (out : Option Json) :
    List Response → AllRun
  | [] => ⟨[], AllOutcome.exhausted⟩
  | r :: rest =>
    let call : GetCall := ⟨request, headers, []⟩
    if r.status_code ≠ 200 then
      ⟨[call], AllOutcome.failed
        (PyError.ioError r.status_code r.reason request r.text)⟩
    else
      match pyAny r.json with
      | none => ⟨[call], AllOutcome.failed (PyError.typeError (anyErrMsg r.json))⟩
      | some false => ⟨[call], AllOutcome.ok out⟩
      | some true =>
        match out with
        | none =>
          let k := allLoop request headers (some r.json) rest
          ⟨call :: k.calls, k.result⟩
        | some o =>
          match r.json, o with
          | Json.obj kvs, Json.obj base =>
            let k := allLoop request headers (some (Json.obj (dictUpdate base kvs))) rest
            ⟨call :: k.calls, k.result⟩
          | Json.obj _, _ =>
            ⟨[call], AllOutcome.failed (PyError.attributeError
              (jsonTypeName o ++ " object has no attribute update"))⟩
          | Json.arr xs, Json.arr base =>
            let k := allLoop request headers (some (Json.arr (base ++ xs))) rest
            ⟨call :: k.calls, k.result⟩
          | Json.arr _, _ =>
            ⟨[call], AllOutcome.failed (PyError.typeError
              ("unsupported operand types for iadd: " ++ jsonTypeName o ++ " and list"))⟩
          | j, _ =>
            ⟨[call], AllOutcome.failed (PyError.typeError (allTypeErrMsg j request))⟩

/-- `Github.get_all`: pops `headers` and `params` from kwargs, ensures an
`Authorization` header, then runs the accumulating pagination loop with
`out = None`.  `params0` is the popped `params` dict, never forwarded. -/
def get_all (token : String) (request : String) (headers0 : Headers)
    (params0 : Params) (pages : List Response) : AllRun :=
  let headers := authHeaders token headers0
  let _ := params0
  allLoop request headers none pages

/-- A 200 response carrying a JSON payload, as produced by the paginated
endpoints. -/
def page200 (j : Json) : Response := ⟨200, "OK", "", j, []⟩

/-- A sequence of 200 list pages. -/
def goodPages (ls : List (List Json)) : List Response :=
  ls.map (fun l => page200 (Json.arr l))

/-- `Github.__init__` credential handling:

    self.token = token
    if token is None:
        self.token = os.getenv("GITHUB_TOKEN", None)
    if token is None:
        raise OSError(...)

The second guard re-checks the `token` parameter rather than
`self.token`, so the constructor raises whenever no explicit token is
passed, even when the environment variable is set.  On success the
resulting `self.token` is returned. -/
def github_init (token : Option String) (envGithubToken : Option String) :
    Except PyError (Option String) :=
  let selfToken := match token with
    | none => envGithubToken
    | some t => some t
  if token = none then
    Except.error (PyError.osError "Could not find environment variable \"GITHUB_TOKEN\".")
  else
    Except.ok selfToken

/-- `Github.BASE_REQ` instantiated with owner and repo. -/
def base_req (owner repo : String) : String :=
  "https://api.github.com/repos/" ++ owner ++ "/" ++ repo

/-- Python `len()` applied to the JSON value returned by `get_all`
(`None` when the loop accumulated nothing): lists, dicts and strings
have a length, `len` of `None`, a bool or a number raises `TypeError`. -/
def pyLenOpt : Option Json → Option Nat
  | some (Json.arr xs) => some xs.length
  | some (Json.obj kvs) => some kvs.length
  | some (Json.str s) => some s.length
  | _ => none

/-- Outcome of `len(self.get_all(request, **kwargs))`, the shape shared
by `forks`, `stargazers`, `subscribers` and `contributors`. -/
inductive CountOutcome where
  | ok : Nat → CountOutcome
  | failed : PyError → CountOutcome
  | exhausted : CountOutcome
deriving Repr, DecidableEq

/-- `len(self.get_all(request, **kwargs))`: run the accumulating
pagination loop, then take the length of the result.  When every page
was empty `get_all` returns `None` and `len(None)` raises
`TypeError`. -/
def countAll (token : String) (request : String) (headers0 : Headers)
    (params0 : Params) (pages : List Response) : CountOutcome :=
  match (get_all token request headers0 params0 pages).result with
  | AllOutcome.failed e => CountOutcome.failed e
  | AllOutcome.exhausted => CountOutcome.exhausted
  | AllOutcome.ok out =>
    match pyLenOpt out with
    | some n => CountOutcome.ok n
    | none => CountOutcome.failed
        (PyError.typeError "object of type NoneType has no len()")

/-- `Github.forks`: `len(self.get_all(self.base_req + "/forks"))`. -/
def forks (token owner repo : String) (headers0 : Headers) (params0 : Params)
    (pages : List Response) : CountOutcome :=
  countAll token (base_req owner repo ++ "/forks") headers0 params0 pages

/-- `Github.stargazers`: `len(self.get_all(self.base_req + "/stargazers"))`. -/
def stargazers (token owner repo : String) (headers0 : Headers) (params0 : Params)
    (pages : List Response) : CountOutcome :=
  countAll token (base_req owner repo ++ "/stargazers") headers0 params0 pages

/-- `Github.subscribers`: `len(self.get_all(self.base_req + "/subscribers"))`. -/
def subscribers (token owner repo : String) (headers0 : Headers) (params0 : Params)
    (pages : List Response) : CountOutcome :=
  countAll token (base_req owner repo ++ "/subscribers") headers0 params0 pages

/-- `Github.contributors`: `len(self.get_all(self.base_req + "/contributors"))`. -/
def contributors (token owner repo : String) (headers0 : Headers) (params0 : Params)
    (pages : List Response) : CountOutcome :=
  countAll token (base_req owner repo ++ "/contributors") headers0 params0 pages

/-- A timestamp in the fixed format `%Y-%m-%dT%H:%M:%SZ`
(`Github.TIME_FORMAT`), already split into its civil fields, the model
of the string parsed by `datetime.datetime.strptime`. -/
structure TS where
  year : Nat
  month : Nat
  day : Nat
  hour : Nat
  minute : Nat
  second : Nat
deriving Repr, DecidableEq

/-- Days from 1970-01-01 of a civil date (years ≥ 1), the standard civil
calendar conversion used by the proleptic Gregorian calendar that
`datetime` implements. -/
def daysFromCivil (y m d : Nat) : Int :=
  let y1 := if m ≤ 2 then y - 1 else y
  let era := y1 / 400
  let yoe := y1 % 400
  let mp := if m > 2 then m - 3 else m + 9
  let doy := (153 * mp + 2) / 5 + d - 1
  let doe := yoe * 365 + yoe / 4 - yoe / 100 + doy
  (era * 146097 + doe : Int) - 719468

/-- Seconds from the epoch of a parsed timestamp, the model of a
`datetime.datetime` value: subtraction of two of these gives
`timedelta.total_seconds()`. -/
def tsToSecs (t : TS) : Int :=
  daysFromCivil t.year t.month t.day * 86400 +
    (t.hour * 3600 + t.minute * 60 + t.second : Nat)

/-- One issue or pull record as consumed by `_issues_pulls`: its
`created_at` and `closed_at` timestamps (`closed_at` is only read when
the state filter is "closed"). -/
structure IPItem where
  created_at : TS
  closed_at : TS
deriving Repr, DecidableEq

/-- The lifetimes list built by the loop of `Github._issues_pulls`:
`d1` starts as `datetime.datetime.now()` and is replaced by the parsed
`closed_at` of the current item when the state filter is "closed";
each lifetime is `(d1 - d0).total_seconds() / (24 * 3600)` in days. -/
def issues_pulls_lifetimes (state : String) (now : Int) (items : List IPItem) :
    List ℚ :=
  items.map (fun it =>
    let d0 := tsToSecs it.created_at
    let d1 := if state == "closed" then tsToSecs it.closed_at else now
    ((d1 - d0 : Int) : ℚ) / (24 * 3600))

/-- A Python generator object over values of type `α`, as returned by
`Github.get_generator`.  Iterating it yields the wrapped list. -/
inductive PyGen (α : Type) where
  | gen : List α → PyGen α

/-- The values a generator yields when iterated. -/
def PyGen.toList {α : Type} : PyGen α → List α
  | .gen xs => xs

/-- Python `len()` applied to a generator object: generators do not
support `len`, so this always raises `TypeError`. -/
def PyGen.pyLen {α : Type} : PyGen α → Except PyError Nat :=
  fun _ => Except.error (PyError.typeError "object of type generator has no len()")

/-- `Github._issues_pulls` after the item stream is fixed: the loop
builds the lifetimes list, then the result dict literal is evaluated.
Its first value is `len(items)`, where `items` is the generator object
returned by `get_generator`; `len` of a generator raises `TypeError`,
so the dict (whose remaining entries would write the mean and the
median of the lifetimes to the same `..._mean_lifetime` key) is never
constructed and the method never returns.  The model therefore pairs
the computed lifetimes with the failure. -/
def issues_pulls (state : String) (now : Int) (items : PyGen IPItem) :
    List ℚ × Except PyError Unit :=
  (issues_pulls_lifetimes state now items.toList,
    match items.pyLen with
    | Except.error e => Except.error e
    | Except.ok _ => Except.ok ())

/-- Splits a reversed character list into its leading digit run and the
remainder: applied to `url.reverse`, this isolates the maximal digit
suffix of `url`. -/
def revDigitsSplit : List Char → List Char × List Char
  | [] => ([], [])
  | c :: cs =>
    if c.isDigit then
      let p := revDigitsSplit cs
      (c :: p.1, p.2)
    else ([], c :: cs)

/-- `re.search(r"page=[0-9]*$", url)`: the match, if any, is the literal
`page=` followed by the maximal digit suffix of `url`, anchored at the
end of the string.  Working on the reversed character list, the text
before the digit suffix must end with `page=`, i.e. its reversal must
start with the characters of `page=` reversed.  Returns
`match.group()`. -/
def reSearchPageEnd (url : String) : Option String :=
  let p := revDigitsSplit url.data.reverse
  if p.2.take 5 = ['=', 'e', 'g', 'a', 'p'] then
    some ("page=" ++ String.mk p.1.reverse)
  else none

/-- Python `str.replace` called with a single argument, as in
`match.group().replace("page=")`: `replace` requires both the old and
the new substring, so this raises `TypeError` before any count is
computed. -/
def strReplaceOneArg (s old : String) : Except PyError String :=
  let _ := s
  let _ := old
  Except.error (PyError.typeError "replace expected at least 2 arguments, got 1")

/-- `Github.commit_count`: fetch the first commits page, read
`req.links["last"]["url"]`, search `page=[0-9]*$` in it (no match is a
`RuntimeError`), then evaluate
`int(match.group().replace("page="))` — `replace` with one argument
raises `TypeError`, so the method always fails once a match is found.
Were `replace` repaired, the final line `len(last_page.url())` calls the
string attribute `url`, raising another `TypeError`. -/
def commit_count (token : String) (base : String) (headers0 : Headers)
    (params0 : Params) (resp1 : Response) : Except PyError Nat :=
  let request := base ++ "/commits"
  match (get_request token request headers0 params0 resp1).2 with
  | Except.error e => Except.error e
  | Except.ok req =>
    match lookupStr req.links "last" with
    | none => Except.error (PyError.keyError "last")
    | some last_url =>
      match reSearchPageEnd last_url with
      | none => Except.error (PyError.runtimeError
          ("Could not find page=[0-9]*$ in url: " ++ last_url))
      | some g =>
        match strReplaceOneArg g "page=" with
        | Except.error e => Except.error e
        | Except.ok _ => Except.error
            (PyError.typeError "str object is not callable")

/-- `out.at[date, commits] += 1` on the date-indexed frame, modelled as
bumping a per-date counter keyed by the date value. -/
def bumpDate (counts : Int → Nat) (c : Int) : Int → Nat :=
  fun d => if d = c then counts d + 1 else counts d

/-- The commit-scanning loop of `Github.commits`.  Dates are modelled as
day ordinals (an `Int`); the stream holds the already parsed
`com["commit"]["author"]["date"]` of the successive commits yielded by
the generator.  For each commit the inner loop over `date_iter` bumps
the bucket of the first date equal to the commit date and computes the
`stop` flag, which survives as `True` exactly when the commit date is
strictly earlier than every date of `date_iter`; when `stop` holds and
`search_all` is unset the outer loop breaks.  Returns the final
per-date counts and the number of commits scanned. -/
def commitsLoop (date_iter : List Int) (search_all : Bool) (counts : Int → Nat) :
    List Int → (Int → Nat) × Nat
  | [] => (counts, 0)
  | c :: rest =>
    let counts1 := if date_iter.contains c then bumpDate counts c else counts
    let stop := date_iter.all (fun d => decide (c < d))
    if stop && !search_all then (counts1, 1)
    else
      let k := commitsLoop date_iter search_all counts1 rest
      (k.1, k.2 + 1)

/-- `Github.commits`: a frame indexed by `date_iter` with a `commits`
column initialised to 0, filled by scanning the commit stream. -/
def commits (date_iter : List Int) (search_all : Bool)
    (commit_dates : List Int) : (Int → Nat) × Nat :=
  commitsLoop date_iter search_all (fun _ => 0) commit_dates

/-- Every call issued by the `get_generator` loop goes to the request URL
with the prepared headers and, because the popped `params` dict is never
forwarded, with no query parameters. -/
theorem genLoop_calls_eq (request : String) (headers : Headers) :
    ∀ pages : List Response, ∀ c ∈ (genLoop request headers pages).calls,
      c = GetCall.mk request headers [] := by
  intro pages
  induction pages with
  | nil => intro c hc; simp [genLoop] at hc
  | cons r rest ih =>
    intro c hc
    simp only [genLoop] at hc
    split at hc
    · simp at hc; exact hc
    · split at hc
      · simp at hc; exact hc
      · simp at hc; exact hc
      · split at hc
        · rcases List.mem_cons.mp hc with h | h
          · exact h
          · exact ih c h
        · simp at hc; exact hc

/-- Every call issued by the `get_all` loop goes to the request URL with
the prepared headers and no query parameters, whatever the accumulator
holds. -/
theorem allLoop_calls_eq (request : String) (headers : Headers) :
    ∀ (pages : List Response) (out : Option Json),
      ∀ c ∈ (allLoop request headers out pages).calls,
        c = GetCall.mk request headers [] := by
  intro pages
  induction pages with
  | nil => intro out c hc; simp [allLoop] at hc
  | cons r rest ih =>
    intro out c hc
    simp only [allLoop] at hc
    split at hc
    · simp at hc; exact hc
    · split at hc
      · simp at hc; exact hc
      · simp at hc; exact hc
      · split at hc
        · rcases List.mem_cons.mp hc with h | h
          · exact h
          · exact ih _ c h
        · split at hc
          · rcases List.mem_cons.mp hc with h | h
            · exact h
            · exact ih _ c h
          · simp at hc; exact hc
          · rcases List.mem_cons.mp hc with h | h
            · exact h
            · exact ih _ c h
          · simp at hc; exact hc
          · simp at hc; exact hc

/-- C1.  The claim says every paginated call carries an incrementing
`page` query parameter starting at 1 together with the caller-supplied
parameters.  The code pops `params` out of `kwargs` (and increments
`params[page]` locally) but then calls
`requests.get(request, headers=headers, **kwargs)` without it, so every
call issued by `get_generator` and by `get_all` — for any caller-supplied
`params0` — carries no query parameters at all: neither `page` nor the
caller parameters are transmitted. -/
theorem c1_params_never_sent (token request : String) (headers0 : Headers)
    (params0 : Params) (pages : List Response) :
    ((get_generator token request headers0 params0 pages).calls.all
        (fun c => c.params.isEmpty)) = true
    ∧ ((get_all token request headers0 params0 pages).calls.all
        (fun c => c.params.isEmpty)) = true := by
  constructor
  · rw [List.all_eq_true]
    intro c hc
    have h := genLoop_calls_eq request (authHeaders token headers0) pages c hc
    rw [h]
    rfl
  · rw [List.all_eq_true]
    intro c hc
    have h := allLoop_calls_eq request (authHeaders token headers0) pages none c hc
    rw [h]
    rfl

/-- C2.  The lifetime computation itself matches the claim: a record
created at 2024-01-01T00:00:00Z and closed at 2024-01-03T12:00:00Z
yields a lifetime of 2.5 days.  But `_issues_pulls` then evaluates
`len(items)` where `items` is the generator object returned by
`get_generator`; `len` of a generator raises `TypeError`, so for every
state, clock value and item stream the method fails instead of
returning the claimed count/mean/median record (whose dict literal
would moreover write mean and median to the same `..._mean_lifetime`
key). -/
theorem c2_issues_pulls_len_generator_bug :
    issues_pulls_lifetimes "closed" 0
        [⟨⟨2024, 1, 1, 0, 0, 0⟩, ⟨2024, 1, 3, 12, 0, 0⟩⟩] = [(5 : ℚ) / 2]
    ∧ ∀ (state : String) (now : Int) (items : PyGen IPItem),
        (issues_pulls state now items).2 =
          Except.error (PyError.typeError "object of type generator has no len()") := by
  refine ⟨?_, fun state now items => rfl⟩
  norm_num [issues_pulls_lifetimes, tsToSecs, daysFromCivil]

/-- C3.  The claim says construction succeeds when `GITHUB_TOKEN` is set
even without an explicit token.  The second guard of `__init__`
re-checks the `token` parameter instead of `self.token`, so the
constructor raises `OSError` whenever the explicit token is absent —
even when the environment variable is set (first conjunct).  An
explicit token is accepted (second conjunct) and the both-absent case
raises as claimed (third conjunct). -/
theorem c3_init_env_token_bug :
    github_init none (some "abc123") =
      Except.error (PyError.osError "Could not find environment variable \"GITHUB_TOKEN\".")
    ∧ github_init (some "tok") none = Except.ok (some "tok")
    ∧ github_init none none =
      Except.error (PyError.osError "Could not find environment variable \"GITHUB_TOKEN\".") := by
  exact ⟨rfl, rfl, rfl⟩

/-- C5.  With a well-formed `last` link relation ending in `page=7`, the
regex search succeeds, but `match.group().replace("page=")` calls
`str.replace` with a single argument, which raises `TypeError`: the
method never computes `items_per_page * (last_page - 1) +
items_in_last_page` (first conjunct).  The claimed fatal error when the
link carries no `page=[0-9]*$` suffix does hold (second conjunct). -/
theorem c5_commit_count_replace_bug :
    commit_count "tok" "https://api.github.com/repos/own/repo" [] []
        ⟨200, "OK", "",
          Json.arr [],
          [("last", "https://api.github.com/repositories/1/commits?page=7")]⟩ =
      Except.error (PyError.typeError "replace expected at least 2 arguments, got 1")
    ∧ commit_count "tok" "https://api.github.com/repos/own/repo" [] []
        ⟨200, "OK", "",
          Json.arr [],
          [("last", "https://api.github.com/repositories/1/commits")]⟩ =
      Except.error (PyError.runtimeError
        "Could not find page=[0-9]*$ in url: https://api.github.com/repositories/1/commits") := by
  exact ⟨rfl, rfl⟩

/-- One `get_generator` step on a 200 list page with a truthy element:
the page is consumed, its entries are yielded, and the loop goes on. -/
theorem genLoop_cons_good (request : String) (headers : Headers) (xs : List Json)
    (rest : List Response) (hx : xs.any truthy = true) :
    genLoop request headers (page200 (Json.arr xs) :: rest) =
      ⟨GetCall.mk request headers [] :: (genLoop request headers rest).calls,
       xs ++ (genLoop request headers rest).items,
       (genLoop request headers rest).outcome⟩ := by
  simp [genLoop, page200, pyAny, hx]

/-- One `get_generator` step on a 200 page with no truthy elements: the
loop breaks. -/
theorem genLoop_cons_stop (request : String) (headers : Headers) (r : Response)
    (rest : List Response) (hs : r.status_code = 200) (hp : pyAny r.json = some false) :
    genLoop request headers (r :: rest) =
      ⟨[GetCall.mk request headers []], [], GenOutcome.done⟩ := by
  simp [genLoop, hs, hp]

/-- One `get_generator` step on a non-200 response: `IOError` carrying
status code, reason, request URL and body. -/
theorem genLoop_cons_err (request : String) (headers : Headers) (r : Response)
    (rest : List Response) (hr : r.status_code ≠ 200) :
    genLoop request headers (r :: rest) =
      ⟨[GetCall.mk request headers []], [],
       GenOutcome.failed (PyError.ioError r.status_code r.reason request r.text)⟩ := by
  simp [genLoop, hr]

/-- One `get_generator` step on a 200 page that neither terminates the
loop nor is a list: a `TypeError` (either from `any` on a non-iterable
payload or from the explicit non-list check). -/
theorem genLoop_cons_nonlist (request : String) (headers : Headers) (r : Response)
    (rest : List Response) (hs : r.status_code = 200) (hp : pyAny r.json ≠ some false)
    (hj : ∀ xs, r.json ≠ Json.arr xs) :
    ∃ m, (genLoop request headers (r :: rest)).outcome =
      GenOutcome.failed (PyError.typeError m) := by
  obtain ⟨sc, re, te, j, li⟩ := r
  simp only [] at hs hp hj
  subst hs
  cases j with
  | null => exact ⟨anyErrMsg Json.null, by simp [genLoop, pyAny]⟩
  | bool b => exact ⟨anyErrMsg (Json.bool b), by simp [genLoop, pyAny]⟩
  | num n => exact ⟨anyErrMsg (Json.num n), by simp [genLoop, pyAny]⟩
  | str s =>
    have ht : (!(s == "")) = true := by
      cases hb : (!(s == "")) with
      | true => rfl
      | false => exact absurd (by simp [pyAny, hb]) hp
    exact ⟨genTypeErrMsg (Json.str s) request, by simp [genLoop, pyAny, ht]⟩
  | arr xs => exact absurd rfl (hj xs)
  | obj kvs =>
    have ht : (kvs.any (fun kv => !(kv.fst == ""))) = true := by
      cases hb : (kvs.any (fun kv => !(kv.fst == ""))) with
      | true => rfl
      | false => exact absurd (by simp [pyAny, hb]) hp
    exact ⟨genTypeErrMsg (Json.obj kvs) request, by simp [genLoop, pyAny, ht]⟩

/-- One `get_all` step on a 200 list page with a truthy element, with a
list already accumulated: the page is appended and the loop goes on. -/
theorem allLoop_cons_good (request : String) (headers : Headers) (acc xs : List Json)
    (rest : List Response) (hx : xs.any truthy = true) :
    allLoop request headers (some (Json.arr acc)) (page200 (Json.arr xs) :: rest) =
      ⟨GetCall.mk request headers [] ::
          (allLoop request headers (some (Json.arr (acc ++ xs))) rest).calls,
       (allLoop request headers (some (Json.arr (acc ++ xs))) rest).result⟩ := by
  simp [allLoop, page200, pyAny, hx]

/-- One `get_all` step on a 200 list page with a truthy element when
nothing is accumulated yet: the page is stored as `out` unchecked. -/
theorem allLoop_cons_first (request : String) (headers : Headers) (xs : List Json)
    (rest : List Response) (hx : xs.any truthy = true) :
    allLoop request headers none (page200 (Json.arr xs) :: rest) =
      ⟨GetCall.mk request headers [] ::
          (allLoop request headers (some (Json.arr xs)) rest).calls,
       (allLoop request headers (some (Json.arr xs)) rest).result⟩ := by
  simp [allLoop, page200, pyAny, hx]

/-- One `get_all` step on a 200 page with no truthy elements: the loop
breaks and returns the accumulator. -/
theorem allLoop_cons_stop (request : String) (headers : Headers) (out : Option Json)
    (r : Response) (rest : List Response) (hs : r.status_code = 200)
    (hp : pyAny r.json = some false) :
    allLoop request headers out (r :: rest) =
      ⟨[GetCall.mk request headers []], AllOutcome.ok out⟩ := by
  simp [allLoop, hs, hp]

/-- One `get_all` step on a non-200 response: `IOError` carrying status
code, reason, request URL and body. -/
theorem allLoop_cons_err (request : String) (headers : Headers) (out : Option Json)
    (r : Response) (rest : List Response) (hr : r.status_code ≠ 200) :
    allLoop request headers out (r :: rest) =
      ⟨[GetCall.mk request headers []],
       AllOutcome.failed (PyError.ioError r.status_code r.reason request r.text)⟩ := by
  simp [allLoop, hr]

/-- One `get_all` step, with a list already accumulated, on a 200 page
that neither terminates the loop nor is a list nor a dict: a
`TypeError`. -/
theorem allLoop_cons_bad (request : String) (headers : Headers) (acc : List Json)
    (r : Response) (rest : List Response) (hs : r.status_code = 200)
    (hp : pyAny r.json ≠ some false) (hja : ∀ xs, r.json ≠ Json.arr xs)
    (hjo : ∀ kvs, r.json ≠ Json.obj kvs) :
    ∃ m, (allLoop request headers (some (Json.arr acc)) (r :: rest)).result =
      AllOutcome.failed (PyError.typeError m) := by
  obtain ⟨sc, re, te, j, li⟩ := r
  simp only [] at hs hp hja hjo
  subst hs
  cases j with
  | null => exact ⟨anyErrMsg Json.null, by simp [allLoop, pyAny]⟩
  | bool b => exact ⟨anyErrMsg (Json.bool b), by simp [allLoop, pyAny]⟩
  | num n => exact ⟨anyErrMsg (Json.num n), by simp [allLoop, pyAny]⟩
  | str s =>
    have ht : (!(s == "")) = true := by
      cases hb : (!(s == "")) with
      | true => rfl
      | false => exact absurd (by simp [pyAny, hb]) hp
    exact ⟨allTypeErrMsg (Json.str s) request, by simp [allLoop, pyAny, ht]⟩
  | arr xs => exact absurd rfl (hja xs)
  | obj kvs => exact absurd rfl (hjo kvs)

/-- Running the `get_generator` loop over a block of 200 list pages, each
with a truthy element: one call per page, all entries yielded in order,
and the run continues into the remaining responses. -/
theorem genLoop_good_append (request : String) (headers : Headers) :
    ∀ (ls : List (List Json)) (rest : List Response),
      (∀ l ∈ ls, l.any truthy = true) →
      genLoop request headers (goodPages ls ++ rest) =
        ⟨List.replicate ls.length (GetCall.mk request headers []) ++
            (genLoop request headers rest).calls,
         ls.flatten ++ (genLoop request headers rest).items,
         (genLoop request headers rest).outcome⟩ := by
  intro ls
  induction ls with
  | nil => intro rest h; simp [goodPages]
  | cons l ls ih =>
    intro rest h
    simp only [goodPages, List.map_cons, List.cons_append]
    rw [genLoop_cons_good request headers l _ (h l (by simp))]
    have hrest := ih rest (fun x hx => h x (by simp [hx]))
    simp only [goodPages] at hrest
    rw [hrest]
    simp [List.replicate_succ]

/-- Running the `get_all` loop over a block of 200 list pages, each with
a truthy element, with a list accumulator: the pages are concatenated
onto the accumulator and the run continues. -/
theorem allLoop_good_append (request : String) (headers : Headers) :
    ∀ (ls : List (List Json)) (acc : List Json) (rest : List Response),
      (∀ l ∈ ls, l.any truthy = true) →
      allLoop request headers (some (Json.arr acc)) (goodPages ls ++ rest) =
        ⟨List.replicate ls.length (GetCall.mk request headers []) ++
            (allLoop request headers (some (Json.arr (acc ++ ls.flatten))) rest).calls,
         (allLoop request headers (some (Json.arr (acc ++ ls.flatten))) rest).result⟩ := by
  intro ls
  induction ls with
  | nil => intro acc rest h; simp [goodPages]
  | cons l ls ih =>
    intro acc rest h
    simp only [goodPages, List.map_cons, List.cons_append]
    rw [allLoop_cons_good request headers acc l _ (h l (by simp))]
    have hrest := ih (acc ++ l) rest (fun x hx => h x (by simp [hx]))
    simp only [goodPages] at hrest
    rw [hrest]
    simp [List.replicate_succ, List.append_assoc]

/-- A run of `get_all` over non-empty truthy list pages followed by an
empty page returns the concatenation of all pages. -/
theorem get_all_good_result (token request : String) (headers0 : Headers)
    (params0 : Params) (ls : List (List Json)) (hne : ls ≠ [])
    (h : ∀ l ∈ ls, l.any truthy = true) :
    (get_all token request headers0 params0
        (goodPages ls ++ [page200 (Json.arr [])])).result
      = AllOutcome.ok (some (Json.arr ls.flatten)) := by
  obtain ⟨l, ls', rfl⟩ := List.exists_cons_of_ne_nil hne
  show (allLoop request (authHeaders token headers0) none _).result = _
  simp only [goodPages, List.map_cons, List.cons_append]
  rw [allLoop_cons_first request _ l _ (h l (by simp))]
  have hgood := allLoop_good_append request (authHeaders token headers0) ls' l
    [page200 (Json.arr [])] (fun x hx => h x (by simp [hx]))
  simp only [goodPages] at hgood
  rw [hgood]
  rw [allLoop_cons_stop _ _ _ _ _ rfl (by simp [page200, pyAny])]
  simp

/-- A run of `get_generator` over truthy list pages followed by an empty
page yields all entries in order and terminates normally. -/
theorem get_generator_good_run (token request : String) (headers0 : Headers)
    (params0 : Params) (ls : List (List Json))
    (h : ∀ l ∈ ls, l.any truthy = true) :
    (get_generator token request headers0 params0
        (goodPages ls ++ [page200 (Json.arr [])])).items = ls.flatten
    ∧ (get_generator token request headers0 params0
        (goodPages ls ++ [page200 (Json.arr [])])).outcome = GenOutcome.done := by
  have hg := genLoop_good_append request (authHeaders token headers0) ls
    [page200 (Json.arr [])] h
  constructor
  · show (genLoop request (authHeaders token headers0) _).items = _
    rw [hg, genLoop_cons_stop _ _ _ _ rfl (by simp [page200, pyAny])]
    simp
  · show (genLoop request (authHeaders token headers0) _).outcome = _
    rw [hg, genLoop_cons_stop _ _ _ _ rfl (by simp [page200, pyAny])]

/-- C4 counterexample.  The claim says a fetched page that is neither a
list nor a mapping raises a type error; but when such a page (here the
non-empty JSON string "abc") is the first non-empty page, `get_all`
stores it in `out` unchecked and, after the following empty page, returns
it normally: no error is raised at all. -/
theorem c4_get_all_accepts_nonlist_page :
    (get_all "t" "u" [] [] [page200 (Json.str "abc"), page200 (Json.arr [])]).result
      = AllOutcome.ok (some (Json.str "abc"))
    ∧ ∀ e, (get_all "t" "u" [] [] [page200 (Json.str "abc"), page200 (Json.arr [])]).result
        ≠ AllOutcome.failed e := by
  refine ⟨rfl, fun e he => ?_⟩
  rw [show (get_all "t" "u" [] [] [page200 (Json.str "abc"), page200 (Json.arr [])]).result
      = AllOutcome.ok (some (Json.str "abc")) from rfl] at he
  exact AllOutcome.noConfusion he

/-- C4 amended.  Over any block of 200 list pages with truthy elements
followed by a further response `r`: (1) when `r` is a 200 page with no
truthy elements, both loops stop exactly there — `get_generator` ends
`done` and `get_all` returns normally, each having issued exactly one
call per page including the terminating one; (2) when `r` is a 200 page
that does not terminate the loop, `get_generator` raises a `TypeError`
whenever `r` is not a list, and `get_all` raises a `TypeError` whenever
`r` is neither a list nor a dict — provided at least one page was
already accumulated, since the first accumulated page is stored
unchecked. -/
theorem c4_pagination_stop_and_type_error (token request : String) (headers0 : Headers)
    (params0 : Params) (ls : List (List Json)) (r : Response) (rest : List Response)
    (hls : ∀ l ∈ ls, l.any truthy = true) :
    (r.status_code = 200 → pyAny r.json = some false →
      ((get_generator token request headers0 params0 (goodPages ls ++ r :: rest)).outcome
          = GenOutcome.done
        ∧ (get_generator token request headers0 params0 (goodPages ls ++ r :: rest)).calls.length
          = ls.length + 1
        ∧ (∃ v, (get_all token request headers0 params0 (goodPages ls ++ r :: rest)).result
            = AllOutcome.ok v)
        ∧ (get_all token request headers0 params0 (goodPages ls ++ r :: rest)).calls.length
          = ls.length + 1))
    ∧ (r.status_code = 200 → pyAny r.json ≠ some false → (∀ xs, r.json ≠ Json.arr xs) →
      ((∃ m, (get_generator token request headers0 params0 (goodPages ls ++ r :: rest)).outcome
          = GenOutcome.failed (PyError.typeError m))
        ∧ (ls ≠ [] → (∀ kvs, r.json ≠ Json.obj kvs) →
            ∃ m, (get_all token request headers0 params0 (goodPages ls ++ r :: rest)).result
              = AllOutcome.failed (PyError.typeError m)))) := by
  constructor
  · intro hs hp
    have hgen := genLoop_good_append request (authHeaders token headers0) ls (r :: rest) hls
    refine ⟨?_, ?_, ?_, ?_⟩
    · show (genLoop request (authHeaders token headers0) _).outcome = _
      rw [hgen, genLoop_cons_stop _ _ _ _ hs hp]
    · show (genLoop request (authHeaders token headers0) _).calls.length = _
      rw [hgen, genLoop_cons_stop _ _ _ _ hs hp]
      simp
    · cases ls with
      | nil =>
        refine ⟨none, ?_⟩
        show (allLoop request (authHeaders token headers0) none _).result = _
        simp only [goodPages, List.map_nil, List.nil_append]
        rw [allLoop_cons_stop _ _ _ _ _ hs hp]
      | cons l ls' =>
        refine ⟨some (Json.arr (l ++ ls'.flatten)), ?_⟩
        show (allLoop request (authHeaders token headers0) none _).result = _
        simp only [goodPages, List.map_cons, List.cons_append]
        rw [allLoop_cons_first _ _ _ _ (hls l (by simp))]
        have hg := allLoop_good_append request (authHeaders token headers0) ls' l (r :: rest)
          (fun x hx => hls x (by simp [hx]))
        simp only [goodPages] at hg
        rw [hg, allLoop_cons_stop _ _ _ _ _ hs hp]
    · cases ls with
      | nil =>
        show (allLoop request (authHeaders token headers0) none _).calls.length = _
        simp only [goodPages, List.map_nil, List.nil_append]
        rw [allLoop_cons_stop _ _ _ _ _ hs hp]
        rfl
      | cons l ls' =>
        show (allLoop request (authHeaders token headers0) none _).calls.length = _
        simp only [goodPages, List.map_cons, List.cons_append]
        rw [allLoop_cons_first _ _ _ _ (hls l (by simp))]
        have hg := allLoop_good_append request (authHeaders token headers0) ls' l (r :: rest)
          (fun x hx => hls x (by simp [hx]))
        simp only [goodPages] at hg
        rw [hg, allLoop_cons_stop _ _ _ _ _ hs hp]
        simp
  · intro hs hp hja
    constructor
    · have hgen := genLoop_good_append request (authHeaders token headers0) ls (r :: rest) hls
      obtain ⟨m, hm⟩ := genLoop_cons_nonlist request (authHeaders token headers0) r rest hs hp hja
      refine ⟨m, ?_⟩
      show (genLoop request (authHeaders token headers0) _).outcome = _
      rw [hgen]
      exact hm
    · intro hne hjo
      obtain ⟨l, ls', rfl⟩ := List.exists_cons_of_ne_nil hne
      obtain ⟨m, hm⟩ := allLoop_cons_bad request (authHeaders token headers0)
        (l ++ ls'.flatten) r rest hs hp hja hjo
      refine ⟨m, ?_⟩
      show (allLoop request (authHeaders token headers0) none _).result = _
      simp only [goodPages, List.map_cons, List.cons_append]
      rw [allLoop_cons_first _ _ _ _ (hls l (by simp))]
      have hg := allLoop_good_append request (authHeaders token headers0) ls' l (r :: rest)
        (fun x hx => hls x (by simp [hx]))
      simp only [goodPages] at hg
      rw [hg]
      exact hm

/-- C4 witness: a concrete instance of the amended theorem — one truthy
list page, then an empty page; the generator terminates normally. -/
theorem c4_pagination_stop_and_type_error_witness :
    (get_generator "t" "u" [] [] (goodPages [[Json.num 1]] ++ page200 (Json.arr []) :: [])).outcome
      = GenOutcome.done :=
  ((c4_pagination_stop_and_type_error "t" "u" [] [] [[Json.num 1]] (page200 (Json.arr [])) []
      (by decide)).1 rfl (by decide)).1

/-- C6 counterexample.  The claim says that with every page empty (zero
records) the count operations return 0; but `get_all` then returns
`None`, and `len(None)` raises `TypeError`, so `forks` on an empty fork
list fails instead of returning 0. -/
theorem c6_forks_empty_raises :
    forks "t" "own" "repo" [] [] [page200 (Json.arr [])]
      = CountOutcome.failed (PyError.typeError "object of type NoneType has no len()")
    ∧ forks "t" "own" "repo" [] [] [page200 (Json.arr [])] ≠ CountOutcome.ok 0 :=
  ⟨rfl, by decide⟩

/-- C6 amended.  `forks`, `stargazers`, `subscribers` and `contributors`
return the count of merged records whenever at least one truthy list
page precedes the terminating empty page; when every fetched page is
empty, `get_all` returns `None` and each operation raises a `TypeError`
from `len(None)` instead of returning 0. -/
theorem c6_count_of_merged_records (token owner repo : String) (headers0 : Headers)
    (params0 : Params) (ls : List (List Json)) (hne : ls ≠ [])
    (h : ∀ l ∈ ls, l.any truthy = true) :
    (forks token owner repo headers0 params0 (goodPages ls ++ [page200 (Json.arr [])])
        = CountOutcome.ok ls.flatten.length
      ∧ stargazers token owner repo headers0 params0 (goodPages ls ++ [page200 (Json.arr [])])
        = CountOutcome.ok ls.flatten.length
      ∧ subscribers token owner repo headers0 params0 (goodPages ls ++ [page200 (Json.arr [])])
        = CountOutcome.ok ls.flatten.length
      ∧ contributors token owner repo headers0 params0 (goodPages ls ++ [page200 (Json.arr [])])
        = CountOutcome.ok ls.flatten.length)
    ∧ (forks token owner repo headers0 params0 [page200 (Json.arr [])]
        = CountOutcome.failed (PyError.typeError "object of type NoneType has no len()")
      ∧ stargazers token owner repo headers0 params0 [page200 (Json.arr [])]
        = CountOutcome.failed (PyError.typeError "object of type NoneType has no len()")
      ∧ subscribers token owner repo headers0 params0 [page200 (Json.arr [])]
        = CountOutcome.failed (PyError.typeError "object of type NoneType has no len()")
      ∧ contributors token owner repo headers0 params0 [page200 (Json.arr [])]
        = CountOutcome.failed (PyError.typeError "object of type NoneType has no len()")) := by
  have key : ∀ request : String,
      countAll token request headers0 params0 (goodPages ls ++ [page200 (Json.arr [])])
        = CountOutcome.ok ls.flatten.length := by
    intro request
    unfold countAll
    rw [get_all_good_result token request headers0 params0 ls hne h]
    rfl
  exact ⟨⟨key _, key _, key _, key _⟩, ⟨rfl, rfl, rfl, rfl⟩⟩

/-- C6 witness: two truthy list pages with one record each, then an
empty page; `forks` returns the merged count 2. -/
theorem c6_count_of_merged_records_witness :
    forks "t" "own" "repo" [] []
        (goodPages [[Json.num 1], [Json.num 2]] ++ [page200 (Json.arr [])])
      = CountOutcome.ok 2 :=
  ((c6_count_of_merged_records "t" "own" "repo" [] [] [[Json.num 1], [Json.num 2]]
      (List.cons_ne_nil _ _) (by decide)).1).1

/-- C7 counterexample.  A single non-empty page whose one record is the
falsy JSON number 0, followed by an empty page: N = 1, but `any` sees no
truthy element on the first page, so pagination stops immediately —
`get_all` returns `None` (not a one-element list) and `get_generator`
yields nothing. -/
theorem c7_falsy_record_page_terminates :
    (get_all "t" "u" [] [] [page200 (Json.arr [Json.num 0]), page200 (Json.arr [])]).result
      = AllOutcome.ok none
    ∧ (∀ v : Json,
        (get_all "t" "u" [] [] [page200 (Json.arr [Json.num 0]), page200 (Json.arr [])]).result
          ≠ AllOutcome.ok (some v))
    ∧ (get_generator "t" "u" [] [] [page200 (Json.arr [Json.num 0]), page200 (Json.arr [])]).items
      = ([] : List Json) := by
  refine ⟨rfl, fun v hv => ?_, rfl⟩
  rw [show (get_all "t" "u" [] [] [page200 (Json.arr [Json.num 0]), page200 (Json.arr [])]).result
      = AllOutcome.ok none from rfl] at hv
  exact Option.noConfusion (AllOutcome.ok.inj hv)

/-- C7 amended.  For every sequence of non-empty list pages each
containing at least one truthy record, followed by one empty page,
`get_all` returns exactly the N concatenated items and `get_generator`
yields exactly those N items in original server order. -/
theorem c7_pagination_returns_all_items (token request : String) (headers0 : Headers)
    (params0 : Params) (ls : List (List Json)) (hne : ls ≠ [])
    (h : ∀ l ∈ ls, l.any truthy = true) :
    (get_all token request headers0 params0 (goodPages ls ++ [page200 (Json.arr [])])).result
      = AllOutcome.ok (some (Json.arr ls.flatten))
    ∧ (get_generator token request headers0 params0 (goodPages ls ++ [page200 (Json.arr [])])).items
      = ls.flatten
    ∧ (get_generator token request headers0 params0 (goodPages ls ++ [page200 (Json.arr [])])).outcome
      = GenOutcome.done :=
  ⟨get_all_good_result token request headers0 params0 ls hne h,
   (get_generator_good_run token request headers0 params0 ls h).1,
   (get_generator_good_run token request headers0 params0 ls h).2⟩

/-- C7 witness: pages of one and two records then an empty page;
`get_all` returns the three records in order. -/
theorem c7_pagination_returns_all_items_witness :
    (get_all "t" "u" [] []
        (goodPages [[Json.num 1], [Json.num 2, Json.num 3]] ++ [page200 (Json.arr [])])).result
      = AllOutcome.ok (some (Json.arr [Json.num 1, Json.num 2, Json.num 3])) :=
  (c7_pagination_returns_all_items "t" "u" [] [] [[Json.num 1], [Json.num 2, Json.num 3]]
      (List.cons_ne_nil _ _) (by decide)).1

/-- C9.  A non-200 response raises `IOError` carrying the status code,
reason, request URL and response body: directly in `get_request`, and at
any pagination step of `get_all` and `get_generator` (here after any
block of well-formed list pages).  `get_all` and `get_request` end in
the error, so no merged or single result is returned. -/
theorem c9_non_200_raises_io_error (token request : String) (headers0 : Headers)
    (params0 : Params) (ls : List (List Json)) (h : ∀ l ∈ ls, l.any truthy = true)
    (r : Response) (hr : r.status_code ≠ 200) (rest : List Response) :
    (get_request token request headers0 params0 r).2
      = Except.error (PyError.ioError r.status_code r.reason request r.text)
    ∧ (get_all token request headers0 params0 (goodPages ls ++ r :: rest)).result
      = AllOutcome.failed (PyError.ioError r.status_code r.reason request r.text)
    ∧ (get_generator token request headers0 params0 (goodPages ls ++ r :: rest)).outcome
      = GenOutcome.failed (PyError.ioError r.status_code r.reason request r.text) := by
  refine ⟨?_, ?_, ?_⟩
  · unfold get_request
    simp [hr]
  · cases ls with
    | nil =>
      show (allLoop request (authHeaders token headers0) none _).result = _
      simp only [goodPages, List.map_nil, List.nil_append]
      rw [allLoop_cons_err _ _ _ _ _ hr]
    | cons l ls' =>
      show (allLoop request (authHeaders token headers0) none _).result = _
      simp only [goodPages, List.map_cons, List.cons_append]
      rw [allLoop_cons_first _ _ _ _ (h l (by simp))]
      have hg := allLoop_good_append request (authHeaders token headers0) ls' l (r :: rest)
        (fun x hx => h x (by simp [hx]))
      simp only [goodPages] at hg
      rw [hg, allLoop_cons_err _ _ _ _ _ hr]
  · show (genLoop request (authHeaders token headers0) _).outcome = _
    rw [genLoop_good_append request _ ls (r :: rest) h, genLoop_cons_err _ _ _ _ hr]

/-- C9 witness: one good page then a 404; `get_all` fails with the
`IOError` carrying status 404, the reason, the URL and the body. -/
theorem c9_non_200_raises_io_error_witness :
    (get_all "t" "u" [] []
        (goodPages [[Json.num 1]] ++ Response.mk 404 "Not Found" "missing" Json.null [] :: [])).result
      = AllOutcome.failed (PyError.ioError 404 "Not Found" "u" "missing") :=
  (c9_non_200_raises_io_error "t" "u" [] [] [[Json.num 1]] (by decide)
      (Response.mk 404 "Not Found" "missing" Json.null []) (by decide) []).2.1

/-- Counting invariant of the `commits` scan: on a stream sorted in
reverse chronological order, the final bucket of every target date holds
the initial value plus the number of stream commits on that date —
commits skipped by the early exit are strictly older than every target
date, so none of them could have matched. -/
theorem commitsLoop_count (dates : List Int) (sa : Bool) :
    ∀ (stream : List Int) (counts : Int → Nat),
      stream.Pairwise (fun a b => b ≤ a) →
      ∀ d ∈ dates,
        (commitsLoop dates sa counts stream).1 d
          = counts d + (stream.filter (fun x => decide (x = d))).length := by
  intro stream
  induction stream with
  | nil => intro counts hsort d hd; simp [commitsLoop]
  | cons c rest ih =>
    intro counts hsort d hd
    rw [List.pairwise_cons] at hsort
    obtain ⟨hc, hrest⟩ := hsort
    simp only [commitsLoop]
    by_cases hs : (dates.all (fun d2 => decide (c < d2)) && !sa) = true
    · rw [if_pos hs]
      have hlt : c < d := by
        have hall := (Bool.and_eq_true _ _).mp hs |>.1
        exact of_decide_eq_true (List.all_eq_true.mp hall d hd)
      have hne : ¬(c = d) := fun he => absurd hlt (by rw [he]; exact lt_irrefl d)
      have hcounts : (if dates.contains c then bumpDate counts c else counts) d = counts d := by
        by_cases hmem : dates.contains c
        · rw [if_pos hmem]
          unfold bumpDate
          rw [if_neg (fun hdc => hne hdc.symm)]
        · rw [if_neg hmem]
      have hfil : (List.filter (fun x => decide (x = d)) (c :: rest)) = [] := by
        rw [List.filter_cons, if_neg (by simp [hne])]
        rw [List.filter_eq_nil_iff]
        intro b hb
        have hble : b ≤ c := hc b hb
        simp only [decide_eq_true_eq]
        intro hbd
        rw [hbd] at hble
        exact absurd (lt_of_le_of_lt hble hlt) (lt_irrefl d)
      rw [hfil]
      exact hcounts
    · rw [if_neg hs]
      have hrec := ih (if dates.contains c then bumpDate counts c else counts) hrest d hd
      rw [hrec, List.filter_cons]
      by_cases hcd : c = d
      · subst hcd
        have hmem : dates.contains c = true := List.elem_eq_true_of_mem hd
        have h1 : (if dates.contains c = true then bumpDate counts c else counts) c
            = counts c + 1 := by
          rw [if_pos hmem]
          unfold bumpDate
          rw [if_pos rfl]
        rw [h1, if_pos (by simp)]
        simp only [List.length_cons]
        omega
      · have h1 : (if dates.contains c = true then bumpDate counts c else counts) d
            = counts d := by
          by_cases hmem : dates.contains c = true
          · rw [if_pos hmem]
            unfold bumpDate
            rw [if_neg (fun hdc => hcd hdc.symm)]
          · rw [if_neg hmem]
        rw [h1, if_neg (by simp [hcd])]

/-- Early-exit invariant of the `commits` scan: with `search_all` unset,
as soon as some commit of the stream is strictly earlier than every
target date, the scan stops there — the number of scanned commits is at
most the position of that commit plus one. -/
theorem commitsLoop_scan (dates : List Int) :
    ∀ (stream : List Int) (counts : Int → Nat) (i : Nat) (hi : i < stream.length),
      (∀ d ∈ dates, stream.get ⟨i, hi⟩ < d) →
      (commitsLoop dates false counts stream).2 ≤ i + 1 := by
  intro stream
  induction stream with
  | nil => intro counts i hi; exact absurd hi (by simp)
  | cons c rest ih =>
    intro counts i hi hstop
    simp only [commitsLoop]
    by_cases hs : (dates.all (fun d2 => decide (c < d2)) && !false) = true
    · rw [if_pos hs]
      exact Nat.succ_le_succ (Nat.zero_le i)
    · rw [if_neg hs]
      cases i with
      | zero =>
        exfalso
        apply hs
        rw [Bool.and_eq_true]
        refine ⟨List.all_eq_true.mpr ?_, rfl⟩
        intro d hd
        exact decide_eq_true (hstop d hd)
      | succ j =>
        have hj : j < rest.length := Nat.lt_of_succ_lt_succ hi
        have hstep := ih (if dates.contains c then bumpDate counts c else counts) j hj
          (fun d hd => hstop d hd)
        exact Nat.succ_le_succ hstep

/-- C8.  For a target date sequence and a commit stream in reverse
chronological order (dates and commit author dates modelled as day
ordinals): the bucket of every target date counts exactly the commits whose
author date equals it, and — unless the `search_all` flag is set — the
scan stops within one step of any commit strictly earlier than every
target date. -/
theorem c8_commits_by_date (date_iter : List Int) (search_all : Bool)
    (commit_dates : List Int)
    (hsort : commit_dates.Pairwise (fun a b => b ≤ a)) :
    (∀ d ∈ date_iter,
        (commits date_iter search_all commit_dates).1 d
          = (commit_dates.filter (fun x => decide (x = d))).length)
    ∧ (search_all = false →
        ∀ (i : Nat) (hi : i < commit_dates.length),
          (∀ d ∈ date_iter, commit_dates.get ⟨i, hi⟩ < d) →
          (commits date_iter search_all commit_dates).2 ≤ i + 1) := by
  constructor
  · intro d hd
    have h := commitsLoop_count date_iter search_all commit_dates (fun _ => 0) hsort d hd
    simpa [commits] using h
  · intro hsa i hi hstop
    subst hsa
    exact commitsLoop_scan date_iter commit_dates (fun _ => 0) i hi hstop

/-- C8 witness: target dates 10 and 11, descending commit stream
11, 10, 5 with early exit enabled — date 10 gets one commit, and the
scan stops at the commit on day 5 (the third commit), within one step
of it. -/
theorem c8_commits_by_date_witness :
    (commits [(10 : Int), 11] false [11, 10, 5]).1 10 = 1
    ∧ (commits [(10 : Int), 11] false [11, 10, 5]).2 ≤ 3 := by
  have h := c8_commits_by_date [(10 : Int), 11] false [11, 10, 5] (by decide)
  exact ⟨h.1 10 (by decide), h.2 rfl 2 (by decide) (by decide)⟩

/-- C10.  When the caller supplies an `Authorization` header, all three
request paths (`get_request`, every pagination call of `get_generator`
and of `get_all`) send the headers given by the caller unchanged; when no
`Authorization` key is present, the same paths send those headers
with the client token entry appended — the token is attached only in
that case. -/
theorem c10_authorization_header_precedence (token request : String) (headers0 : Headers)
    (params0 : Params) (resp : Response) (pages : List Response) :
    ((∃ v, lookupStr headers0 "Authorization" = some v) →
      ((get_request token request headers0 params0 resp).1.headers = headers0
        ∧ (∀ c ∈ (get_generator token request headers0 params0 pages).calls,
            c.headers = headers0)
        ∧ (∀ c ∈ (get_all token request headers0 params0 pages).calls,
            c.headers = headers0)))
    ∧ (lookupStr headers0 "Authorization" = none →
      ((get_request token request headers0 params0 resp).1.headers
          = headers0 ++ [("Authorization", "token " ++ token)]
        ∧ (∀ c ∈ (get_generator token request headers0 params0 pages).calls,
            c.headers = headers0 ++ [("Authorization", "token " ++ token)])
        ∧ (∀ c ∈ (get_all token request headers0 params0 pages).calls,
            c.headers = headers0 ++ [("Authorization", "token " ++ token)]))) := by
  constructor
  · rintro ⟨v, hv⟩
    have hA : authHeaders token headers0 = headers0 := by
      unfold authHeaders
      rw [hv]
      rfl
    refine ⟨hA, ?_, ?_⟩
    · intro c hc
      rw [genLoop_calls_eq request (authHeaders token headers0) pages c hc]
      exact hA
    · intro c hc
      rw [allLoop_calls_eq request (authHeaders token headers0) pages none c hc]
      exact hA
  · intro hnone
    have hA : authHeaders token headers0 = headers0 ++ [("Authorization", "token " ++ token)] := by
      unfold authHeaders
      rw [hnone]
      rfl
    refine ⟨hA, ?_, ?_⟩
    · intro c hc
      rw [genLoop_calls_eq request (authHeaders token headers0) pages c hc]
      exact hA
    · intro c hc
      rw [allLoop_calls_eq request (authHeaders token headers0) pages none c hc]
      exact hA

/-- C10 witness: a caller-supplied `Authorization: Bearer abc` header is
sent unchanged by `get_request`, with no token entry attached. -/
theorem c10_authorization_header_precedence_witness :
    (get_request "tok" "u" [("Authorization", "Bearer abc")] []
        (page200 (Json.arr []))).1.headers
      = [("Authorization", "Bearer abc")] :=
  ((c10_authorization_header_precedence "tok" "u" [("Authorization", "Bearer abc")] []
      (page200 (Json.arr [])) []).1 ⟨"Bearer abc", rfl⟩).1

end Osos
